import Mathlib

/-!
Shallow embedding of `src/M3U_Installer_Monitor.py` (M3U Matrix CDS v5.0
enhanced install monitor).

Modelling conventions:
* Python dictionaries keyed by strings are association lists
  (`List (String × Nat)` etc.) with first-occurrence lookup and in-place
  update, matching CPython insertion-order semantics.
* Wall-clock timestamps (`datetime.now()`) are modelled as `Nat` clock
  readings passed explicitly where a claim depends on them (the report
  builder); the `timestamp` fields of error/warning/step records are pure
  pass-through data that no report output or control decision reads, so they
  are omitted from the record types.
* The child installer process of one attempt is modelled by `ProcSpec`:
  either the launch raises (`launchFail`), or the process exits `exitTime`
  seconds after launch with exit code `code`.  The monitor's poll loop
  (`time.sleep(1)` up to `max_wait = 300` iterations, then a final
  `proc.poll()`) is `waitLoop`/`boundedWait`.
* `time.sleep(5)` backoff calls between attempts are recorded in
  `MonitorState.sleeps`; the per-poll one-second sleeps are part of the
  elapsed-time bookkeeping inside `boundedWait`.
* Filesystem state seen by the verifiers is an explicit snapshot (`FS`,
  `InstallerFile`): one read pass, no time-of-check/time-of-use gap.
* Logging to `install_audit.log` (`safe_log`) and console printing are
  observably irrelevant side channels and are not modelled.
-/

/-- One record appended by `ErrorTracker.add_error` (source lines 67-77).
The `timestamp` field is omitted (see module conventions). -/
structure ErrorRecord where
  category : String
  error : String
  severity : String
  suggestion : String
  retry_count : Nat
deriving DecidableEq, Repr

/-- One record appended by `ErrorTracker.add_warning` (source lines 79-87). -/
structure WarningRecord where
  category : String
  warning : String
  suggestion : String
deriving DecidableEq, Repr

/-- First-occurrence lookup with default 0: Python `d.get(k, 0)`. -/
def lookupD (l : List (String × Nat)) (c : String) : Nat :=
  match l with
  | [] => 0
  | (k, v) :: rest => if k == c then v else lookupD rest c

/-- Python `d[k] = v` on an insertion-ordered dict: update the first
occurrence in place, else append at the end. -/
def dictSet (l : List (String × Nat)) (c : String) (v : Nat) : List (String × Nat) :=
  match l with
  | [] => [(c, v)]
  | (k, x) :: rest => if k == c then (c, v) :: rest else (k, x) :: dictSet rest c v

/-- The `ErrorTracker` class state (source lines 55-66): error list, warning
list and per-category retry counters.  The constant `severity_levels`
description dict is documentation-only and not modelled. -/
structure ErrorTracker where
  errors : List ErrorRecord
  warnings : List WarningRecord
  retries : List (String × Nat)
deriving DecidableEq, Repr

/-- `ErrorTracker()` constructor state. -/
def ErrorTracker.init : ErrorTracker := ⟨[], [], []⟩

/-- `ErrorTracker.add_error` (source lines 67-77): appends a record whose
`retry_count` snapshot is the category's current retry counter, and returns
the record. -/
def ErrorTracker.add_error (t : ErrorTracker) (category error severity suggestion : String) :
    ErrorTracker × ErrorRecord :=
  let e : ErrorRecord :=
    { category := category, error := error, severity := severity,
      suggestion := suggestion, retry_count := lookupD t.retries category }
  ({ t with errors := t.errors ++ [e] }, e)

/-- `ErrorTracker.add_warning` (source lines 79-87). -/
def ErrorTracker.add_warning (t : ErrorTracker) (category warning suggestion : String) :
    ErrorTracker × WarningRecord :=
  let w : WarningRecord := { category := category, warning := warning, suggestion := suggestion }
  ({ t with warnings := t.warnings ++ [w] }, w)

/-- `ErrorTracker.increment_retry` (source lines 89-90). -/
def ErrorTracker.increment_retry (t : ErrorTracker) (category : String) : ErrorTracker :=
  { t with retries := dictSet t.retries category (lookupD t.retries category + 1) }

/-- `ErrorTracker.get_retry_count` (source lines 92-93). -/
def ErrorTracker.get_retry_count (t : ErrorTracker) (category : String) : Nat :=
  lookupD t.retries category

/-- One entry of `audit["steps"]` appended by `add_step` (source lines
119-128); the `time` field is omitted (see module conventions). -/
structure Step where
  name : String
  status : String
  details : String
  attempt : Nat
deriving DecidableEq, Repr

/-- The global `audit` dict (source lines 110-117).  The `"attempts"` and
`"system_info"` entries are never written or read and are omitted. -/
structure Audit where
  start_time : Nat
  steps : List Step
  end_time : Option Nat
  success : Bool
deriving DecidableEq, Repr

/-- Combined mutable module state threaded through the monitor: the global
`error_tracker`, the global `audit` dict, and the trace of `time.sleep`
backoff calls made between installer attempts. -/
structure MonitorState where
  tracker : ErrorTracker
  audit : Audit
  sleeps : List Nat
deriving DecidableEq, Repr

/-- Module state at program start: fresh tracker, `audit` as initialised at
source lines 110-117 (`success: True`, no steps, clock origin 0). -/
def initState : MonitorState :=
  { tracker := ErrorTracker.init,
    audit := { start_time := 0, steps := [], end_time := none, success := true },
    sleeps := [] }

/-- `add_step` (source lines 119-128) acting on the module state. -/
def addStepS (s : MonitorState) (name status details : String) (attempt : Nat) : MonitorState :=
  { s with audit := { s.audit with
      steps := s.audit.steps ++ [{ name := name, status := status,
                                   details := details, attempt := attempt }] } }

/-- `error_tracker.add_error` acting on the module state. -/
def addErrorS (s : MonitorState) (category error severity suggestion : String) : MonitorState :=
  { s with tracker := (s.tracker.add_error category error severity suggestion).1 }

/-- `error_tracker.add_warning` acting on the module state. -/
def addWarningS (s : MonitorState) (category warning suggestion : String) : MonitorState :=
  { s with tracker := (s.tracker.add_warning category warning suggestion).1 }

/-- `error_tracker.increment_retry` acting on the module state. -/
def incrementRetryS (s : MonitorState) (category : String) : MonitorState :=
  { s with tracker := s.tracker.increment_retry category }

/-- A `time.sleep(d)` backoff call between installer attempts. -/
def sleepS (s : MonitorState) (d : Nat) : MonitorState :=
  { s with sleeps := s.sleeps ++ [d] }

/-- `EXPECTED_FILES` (source lines 37-50). -/
def EXPECTED_FILES : List String :=
  ["main.py",
   "gemini_api.py",
   "imdb_scraper.py",
   "requirements.txt",
   "build_installer.py",
   "weebly_player_full.html",
   "player/player-logic.js",
   "themes/dark.json",
   "themes/neon.json",
   "electron_app/main.js",
   "electron_app/preload.js",
   "electron_app/package.json"]

/-- `str(BAT_FILE)` (source line 31). -/
def BAT_FILE_STR : String := "installer m3u builder.bat"

/-- `str(INSTALL_DIR)`; the `Path.home()` base is environment-dependent and
irrelevant to every claim, so the path is rendered from its fixed tail. -/
def INSTALL_DIR_STR : String := "Desktop/M3U Matrix CDS v5.0"

/-- `str(Path.cwd())`, likewise environment-dependent. -/
def CWD_STR : String := "."

/-- `str(LOG_FILE)` (source line 32). -/
def LOG_FILE_STR : String := INSTALL_DIR_STR ++ "/install_audit.log"

/-- `str(REPORT_FILE)` (source line 33). -/
def REPORT_FILE_STR : String := INSTALL_DIR_STR ++ "/AUDIT_REPORT.txt"

/-- `str(DIAGNOSTICS_FILE)` (source line 34). -/
def DIAGNOSTICS_FILE_STR : String := INSTALL_DIR_STR ++ "/SYSTEM_DIAGNOSTICS.json"

/-- Does `pat` occur at the head of `l`? (helper for Python's `in` on
strings). -/
def listStarts (pat l : List Char) : Bool :=
  match pat, l with
  | [], _ => true
  | _ :: _, [] => false
  | p :: ps, c :: cs => if p == c then listStarts ps cs else false

/-- Does `pat` occur contiguously anywhere in `l`? -/
def listHasSub (pat : List Char) : List Char → Bool
  | [] => listStarts pat []
  | b :: bs => listStarts pat (b :: bs) || listHasSub pat bs

/-- Python's substring test `pat in s`. -/
def strContains (s pat : String) : Bool := listHasSub pat.toList s.toList

/-- `key_markers` (source line 242). -/
def key_markers : List String := ["@echo off", "M3U Matrix", "pip install", "python"]

/-- Snapshot of the installer artifact as observed by
`verify_installer_comprehensive`: presence, `stat().st_size`, `Path.suffix`,
and the decoded text (`none` models a `UnicodeDecodeError` from
`read_text`). -/
structure InstallerFile where
  present : Bool
  size : Nat
  suffix : String
  content : Option String
deriving DecidableEq, Repr

/-- The local `checks` dict of `verify_installer_comprehensive` (source
lines 202-208).  In the source it is written but never read afterwards; it
is returned here so the recorded facts are observable. -/
structure Checks where
  file_exists : Bool
  size_bytes : Nat
  is_batch_file : Bool
  content_check : Bool
  encoding_valid : Bool
deriving DecidableEq, Repr

/-- `verify_installer_comprehensive` (source lines 198-268): the pre-flight
validation of the installer artifact.  Returns the boolean verdict, the
`checks` facts, and the updated module state. -/
def verify_installer_comprehensive (f : InstallerFile) (s : MonitorState) :
    Bool × Checks × MonitorState :=
  let s := addStepS s "Comprehensive installer verification" "RUNNING" "" 1
  let checks : Checks :=
    { file_exists := false, size_bytes := 0, is_batch_file := false,
      content_check := false, encoding_valid := false }
  if f.present = false then
    (false, checks,
     addErrorS s "Installer Verification" ("File not found: " ++ BAT_FILE_STR) "CRITICAL"
       ("Ensure \x27installer m3u builder.bat\x27 is in: " ++ CWD_STR))
  else
    let checks := { checks with file_exists := true }
    let file_size := f.size
    let checks := { checks with size_bytes := file_size }
    let s :=
      if file_size < 100 then
        addWarningS s "Installer Size"
          ("Installer file very small: " ++ toString file_size ++ " bytes")
          "File may be corrupted or incomplete"
      else s
    let checks := { checks with is_batch_file := f.suffix.toLower == ".bat" }
    match f.content with
    | some content =>
      let checks := { checks with content_check := true, encoding_valid := true }
      let markers_found := key_markers.filter (fun marker => strContains content marker)
      let s :=
        if markers_found.length < 2 then
          addWarningS s "Installer Content" "Missing expected batch file markers"
            "File may not be a valid installer"
        else s
      let s := addStepS s "Comprehensive installer verification" "SUCCESS"
        ("Size: " ++ toString file_size ++ " bytes, Markers: "
          ++ toString markers_found.length ++ "/4") 1
      (true, checks, s)
    | none =>
      let checks := { checks with encoding_valid := false }
      (false, checks,
       addErrorS s "Installer Encoding" "Batch file has invalid encoding" "HIGH"
         "Re-download the installer file")

/-- One entry of `verification["files_found"]` (source lines 310-314). -/
structure FoundFile where
  path : String
  size_bytes : Nat
  is_empty : Bool
deriving DecidableEq, Repr

/-- The `verification` dict of `verify_installation_comprehensive` (source
lines 277-284).  `files_empty` is `files_partial` in the source (renamed;
the un-written `directory_structure` entry is omitted). -/
structure Verification where
  files_found : List FoundFile
  files_missing : List String
  files_empty : List String
  total_expected : Nat
  install_size_bytes : Nat
deriving DecidableEq, Repr

/-- Snapshot of the install tree under `INSTALL_DIR`: whether the directory
exists, and the regular files below it as relative-path/size pairs (one
filesystem read pass). -/
structure FS where
  rootExists : Bool
  files : List (String × Nat)
deriving DecidableEq, Repr

/-- `(INSTALL_DIR / p).exists()` + `stat().st_size` against the snapshot. -/
def FS.lookupFile (fs : FS) (p : String) : Option Nat :=
  (fs.files.find? (fun q => q.1 == p)).map (fun q => q.2)

/-- The per-manifest-entry classification loop of
`verify_installation_comprehensive` (source lines 305-324). -/
def classifyLoop (fs : FS) : List String → Verification → MonitorState →
    Verification × MonitorState
  | [], v, s => (v, s)
  | p :: rest, v, s =>
    match fs.lookupFile p with
    | some file_size =>
      let v := { v with files_found :=
        v.files_found ++ [{ path := p, size_bytes := file_size, is_empty := file_size == 0 }] }
      if file_size == 0 then
        classifyLoop fs rest { v with files_empty := v.files_empty ++ [p] }
          (addWarningS s "File Content" ("Empty file: " ++ p)
            "File was created but contains no data")
      else
        classifyLoop fs rest v s
    | none =>
      classifyLoop fs rest { v with files_missing := v.files_missing ++ [p] } s

/-- `verify_installation_comprehensive` (source lines 273-357), with the
expected manifest as injected configuration (the source reads the global
`EXPECTED_FILES`). -/
def verify_installation_comprehensive (expected : List String) (fs : FS) (s : MonitorState) :
    Verification × MonitorState :=
  let s := addStepS s "Comprehensive installation verification" "RUNNING" "" 1
  let verification : Verification :=
    { files_found := [], files_missing := [], files_empty := [],
      total_expected := expected.length, install_size_bytes := 0 }
  if fs.rootExists = false then
    (verification,
     addErrorS s "Installation Directory"
       ("Installation directory not created: " ++ INSTALL_DIR_STR) "CRITICAL"
       "The installer may have failed at folder creation step")
  else
    let total_size := (fs.files.map (fun q => q.2)).sum
    let verification := { verification with install_size_bytes := total_size }
    let res := classifyLoop fs expected verification s
    let verification := res.1
    let s := res.2
    let found_count := verification.files_found.length
    let missing_count := verification.files_missing.length
    let empty_count := verification.files_empty.length
    let s :=
      if missing_count > 0 then
        addErrorS s "File Verification"
          (toString missing_count ++ " files missing, " ++ toString empty_count ++ " files empty")
          (if missing_count > 5 then "HIGH" else "MEDIUM")
          "Check network connection and GitHub availability"
      else s
    let s :=
      if found_count == 0 then
        addErrorS s "Installation" "No expected files were installed" "CRITICAL"
          "The installer may be downloading to wrong location or failing completely"
      else s
    let s := addStepS s "Comprehensive installation verification"
      (if missing_count == 0 then "SUCCESS" else "WARNING")
      ("Files: " ++ toString found_count ++ "/" ++ toString expected.length
        ++ " found, Size: " ++ toString total_size ++ " bytes") 1
    (verification, s)

/-- Behaviour of the child installer process for one attempt:
`launchFail msg` models `subprocess.Popen` raising an exception (caught at
source line 414); `proc exitTime code` models a process that exits
`exitTime` seconds after launch with exit code `code` (never, within the
monitored window, when `exitTime` exceeds the bounded wait). -/
inductive ProcSpec where
  | launchFail (msg : String)
  | proc (exitTime : Nat) (code : Int)
deriving DecidableEq, Repr

/-- The monitoring loop of source lines 380-389: `fuel` remaining poll
iterations, `t` seconds elapsed so far.  Each iteration sleeps one second
and polls; on loop exit (break or exhaustion) line 389 polls once more,
with the same result.  Returns the final `return_code` (`none` = still
running). -/
def waitLoop (exitTime : Nat) (code : Int) : Nat → Nat → Option Int
  | 0, t => if exitTime ≤ t then some code else none
  | fuel + 1, t =>
    if exitTime ≤ t + 1 then some code else waitLoop exitTime code fuel (t + 1)

/-- `max_wait`-bounded wait for the child process (source lines 380-389,
`max_wait = 300`). -/
def boundedWait (max_wait exitTime : Nat) (code : Int) : Option Int :=
  waitLoop exitTime code max_wait 0

/-- The step name `f"Run installer - Attempt {attempt}"`. -/
def attemptName (attempt : Nat) : String :=
  "Run installer - Attempt " ++ toString attempt

/-- The retry suggestion string of source line 404. -/
def retrySuggestion (attempt max_attempts : Nat) : String :=
  if attempt < max_attempts then
    "Retrying... (" ++ toString attempt ++ "/" ++ toString max_attempts ++ ")"
  else "All retries exhausted"

/-- The `status_msg` classification of source line 397: a non-`None` poll
result renders its exit code, `None` is a timeout. -/
def statusMsg (return_code : Option Int) : String :=
  match return_code with
  | some c => "Exit code: " ++ toString c
  | none => "Timed out"

/-- The `for attempt in range(1, max_attempts + 1)` loop body of
`run_installer_with_retries` (source lines 365-425), as structural
recursion on the number of remaining iterations (`fuel`); `attempt` is the
current 1-based attempt number.  When the loop runs out of iterations the
trailing `return False` of line 425 fires. -/
def runLoop (beh : Nat → ProcSpec) (max_attempts : Nat) :
    Nat → Nat → MonitorState → Bool × MonitorState
  | 0, _, s => (false, s)
  | fuel + 1, attempt, s =>
    let s := incrementRetryS s "Installer Execution"
    let s := addStepS s (attemptName attempt) "RUNNING" "" attempt
    match beh attempt with
    | ProcSpec.launchFail msg =>
      let s := addErrorS s "Installer Execution"
        ("Attempt " ++ toString attempt ++ " crashed: " ++ msg)
        (if attempt == max_attempts then "HIGH" else "MEDIUM") ""
      if attempt < max_attempts then
        runLoop beh max_attempts fuel (attempt + 1) (sleepS s 5)
      else
        (false, s)
    | ProcSpec.proc exitTime code =>
      let return_code := boundedWait 300 exitTime code
      if return_code == some 0 then
        (true, addStepS s (attemptName attempt) "SUCCESS"
          ("Completed on attempt " ++ toString attempt) attempt)
      else
        let status_msg := statusMsg return_code
        let s := addStepS s (attemptName attempt) "FAILED" status_msg attempt
        let s := addErrorS s "Installer Execution"
          ("Attempt " ++ toString attempt ++ " failed: " ++ status_msg)
          (if attempt == max_attempts then "HIGH" else "MEDIUM")
          (retrySuggestion attempt max_attempts)
        if attempt < max_attempts then
          runLoop beh max_attempts fuel (attempt + 1) (sleepS s 5)
        else
          (false, s)

/-- `run_installer_with_retries` (source lines 362-425): run the attempt
loop from attempt 1. -/
def run_installer_with_retries (beh : Nat → ProcSpec) (max_attempts : Nat)
    (s : MonitorState) : Bool × MonitorState :=
  runLoop beh max_attempts max_attempts 1 s

/-- Attempt classes: does `beh k` make the attempt crash at launch, succeed
(exit code 0 observed within the bounded wait), or fail observably
(non-zero exit or timeout)? -/
inductive AttemptClass where
  | crash
  | ok
  | failed
deriving DecidableEq, Repr

/-- Classify one attempt's process behaviour. -/
def classifyAttempt (p : ProcSpec) : AttemptClass :=
  match p with
  | ProcSpec.launchFail _ => AttemptClass.crash
  | ProcSpec.proc exitTime code =>
    if boundedWait 300 exitTime code == some 0 then AttemptClass.ok else AttemptClass.failed

/-- The attempt fails (any of the three failure modes). -/
def isFailureB (p : ProcSpec) : Bool :=
  match p with
  | ProcSpec.launchFail _ => true
  | ProcSpec.proc exitTime code => !(boundedWait 300 exitTime code == some 0)

/-- The attempt fails via the observable-process path (non-zero exit or
timeout) — the path that appends a `FAILED` Step. -/
def isStepFailureB (p : ProcSpec) : Bool :=
  match p with
  | ProcSpec.launchFail _ => false
  | ProcSpec.proc exitTime code => !(boundedWait 300 exitTime code == some 0)

/-- The attempt succeeds: exit code 0 observed within the bounded wait. -/
def isSuccessB (p : ProcSpec) : Bool :=
  match p with
  | ProcSpec.launchFail _ => false
  | ProcSpec.proc exitTime code => boundedWait 300 exitTime code == some 0

/-- The attempt exits within the bounded wait with a non-zero exit code. -/
def nonzeroExitB (p : ProcSpec) : Bool :=
  match p with
  | ProcSpec.launchFail _ => false
  | ProcSpec.proc exitTime code => decide (exitTime ≤ 300) && !(code == 0)

/-- Number of `FAILED`-status steps in a step log. -/
def failedCount (l : List Step) : Nat :=
  (l.filter (fun st => st.status == "FAILED")).length

/-- Number of `RUNNING`-status steps in a step log (one per launched
attempt). -/
def runningCount (l : List Step) : Nat :=
  (l.filter (fun st => st.status == "RUNNING")).length

/-- Insertion-ordered occurrence counting: the
`error_summary["by_severity"]` / `["by_category"]` accumulation of source
lines 447-449. -/
def countBy (keys : List String) : List (String × Nat) :=
  keys.foldl (fun acc k => dictSet acc k (lookupD acc k + 1)) []

/-- One `"  {key}: {count} error(s)\n"` line per dict entry (source lines
470-471 and 476-477). -/
def renderCounts (l : List (String × Nat)) : String :=
  l.foldl (fun acc p => acc ++ "  " ++ p.1 ++ ": " ++ toString p.2 ++ " error(s)\n") ""

/-- The status icon of source line 483. -/
def statusIcon (status : String) : String :=
  if status == "SUCCESS" then "✅" else if status == "WARNING" then "⚠️" else "❌"

/-- Rendering of one step entry (source lines 482-488). -/
def renderStep (st : Step) : String :=
  "  " ++ statusIcon st.status ++ " [" ++ st.status ++ "] " ++ st.name ++ "\n"
    ++ (if st.details == "" then "" else "      → " ++ st.details ++ "\n")
    ++ (if st.attempt > 1 then "      → Attempt: " ++ toString st.attempt ++ "\n" else "")

/-- Rendering of one HIGH/CRITICAL error in the critical-errors section
(source lines 494-498). -/
def renderCritical (e : ErrorRecord) : String :=
  if e.severity == "HIGH" || e.severity == "CRITICAL" then
    "  🚨 " ++ e.category ++ ": " ++ e.error ++ "\n"
      ++ (if e.suggestion == "" then "" else "      💡 Suggestion: " ++ e.suggestion ++ "\n")
  else ""

/-- Rendering of one warning entry (source lines 504-507). -/
def renderWarning (w : WarningRecord) : String :=
  "  ⚠️  " ++ w.category ++ ": " ++ w.warning ++ "\n"
    ++ (if w.suggestion == "" then "" else "      💡 Suggestion: " ++ w.suggestion ++ "\n")

/-- The recommendation list of source lines 514-536: substring pattern
matches over the category names present in the ledger, with a
success/failure fallback when no pattern matched. -/
def recommendationsFor (tr : ErrorTracker) (auditSuccess : Bool) : List String :=
  let recommendations : List String :=
    (if tr.errors.any (fun e => strContains e.category "Network") then
      ["• Check your internet connection and firewall settings"] else [])
    ++ (if tr.errors.any (fun e => strContains e.category "Installer") then
      ["• Verify the installer file is complete and not corrupted"] else [])
    ++ (if tr.warnings.any (fun w => strContains w.category "Disk") then
      ["• Free up disk space on your desktop drive"] else [])
    ++ (if tr.errors.any (fun e => strContains e.category "File Verification") then
      ["• The installer may be blocked from downloading files",
       "• Try running as Administrator",
       "• Check antivirus software isn\x27t blocking the installation"] else [])
  if recommendations.isEmpty then
    if auditSuccess then
      ["• Installation completed successfully!", "• Run: START M3U Matrix.bat"]
    else
      ["• Review the errors above and try again", "• Contact support with the audit log"]
  else recommendations

/-- The report text assembled by `generate_comprehensive_report` (source
lines 452-550) as a function of the data it reads: the ledger, the step
log, `audit["start_time"]`, `audit["success"]`, and the current clock
reading (`datetime.now()`, which becomes `audit["end_time"]` and the
duration). -/
def reportText (tr : ErrorTracker) (steps : List Step) (start_time now : Nat)
    (auditSuccess : Bool) : String :=
  let duration := now - start_time
  let by_severity := countBy (tr.errors.map (fun e => e.severity))
  let by_category := countBy (tr.errors.map (fun e => e.category))
  "\n╔" ++ String.mk (List.replicate 60 '═') ++ "╗\n"
  ++ "║          M3U MATRIX CDS v5.0 - ENHANCED AUDIT REPORT       ║\n"
  ++ "╚" ++ String.mk (List.replicate 60 '═') ++ "╝\n"
  ++ "\nTIMELINE:\n"
  ++ "  Start    : " ++ toString start_time ++ "\n"
  ++ "  End      : " ++ toString now ++ "\n"
  ++ "  Duration : " ++ toString duration ++ "\n"
  ++ "\nSUMMARY:\n"
  ++ "  Success  : " ++ (if auditSuccess then "✅ YES" else "❌ NO") ++ "\n"
  ++ "  Errors   : " ++ toString tr.errors.length ++ "\n"
  ++ "  Warnings : " ++ toString tr.warnings.length ++ "\n"
  ++ "\nERROR SEVERITY BREAKDOWN:\n"
  ++ renderCounts by_severity
  ++ "\nERROR CATEGORIES:\n"
  ++ renderCounts by_category
  ++ "\nDETAILED STEPS:\n"
  ++ (steps.map renderStep).foldl (fun acc x => acc ++ x) ""
  ++ (if tr.errors.isEmpty then "" else
      "\nCRITICAL ERRORS:\n" ++ (tr.errors.map renderCritical).foldl (fun acc x => acc ++ x) "")
  ++ (if tr.warnings.isEmpty then "" else
      "\nWARNINGS:\n" ++ (tr.warnings.map renderWarning).foldl (fun acc x => acc ++ x) "")
  ++ "\nRECOMMENDATIONS:\n"
  ++ ((recommendationsFor tr auditSuccess).map (fun r => "  " ++ r ++ "\n")).foldl
      (fun acc x => acc ++ x) ""
  ++ "\nFILES:\n"
  ++ "  Log          : " ++ LOG_FILE_STR ++ "\n"
  ++ "  Report       : " ++ REPORT_FILE_STR ++ "\n"
  ++ "  Diagnostics  : " ++ DIAGNOSTICS_FILE_STR ++ "\n"
  ++ "  Installer    : " ++ BAT_FILE_STR ++ "\n"
  ++ "  Location     : " ++ INSTALL_DIR_STR ++ "\n"
  ++ "\nThank you for using M3U Matrix CDS v5.0!\n"

/-- `generate_comprehensive_report` (source lines 430-559): stamps
`audit["end_time"]` with the current clock reading `now`, then renders the
report from the global tracker and audit state.  Writing the report file is
a side channel; the produced text and updated state are returned. -/
def generate_comprehensive_report (s : MonitorState) (now : Nat) : String × MonitorState :=
  let a := { s.audit with end_time := some now }
  (reportText s.tracker a.steps a.start_time now a.success, { s with audit := a })

/-- The post-confirmation pipeline of `main` (source lines 619-627): run the
installer with three attempts, verify the installation, and derive
`audit["success"]` from the two outcomes. -/
def mainRun (beh : Nat → ProcSpec) (fs : FS) (s : MonitorState) :
    Bool × Verification × MonitorState :=
  let installation_success := (run_installer_with_retries beh 3 s).1
  let s1 := (run_installer_with_retries beh 3 s).2
  let verification := (verify_installation_comprehensive EXPECTED_FILES fs s1).1
  let s2 := (verify_installation_comprehensive EXPECTED_FILES fs s1).2
  let s3 := { s2 with audit := { s2.audit with
    success := installation_success && (verification.files_missing.length == 0) } }
  (installation_success, verification, s3)

/-- Invariant established by the retry loop when every remaining attempt
fails: failure result, one error per attempt (HIGH only on the last), no
warnings, one retry increment and one `RUNNING` step per attempt, one
`FAILED` step per observable (non-crash) failure, and a 5-second backoff
between consecutive attempts. -/
def AllFailP (beh : Nat → ProcSpec) (N fuel a : Nat) (s : MonitorState) : Prop :=
  (runLoop beh N fuel a s).1 = false ∧
  (∃ newErrs : List ErrorRecord,
    (runLoop beh N fuel a s).2.tracker.errors = s.tracker.errors ++ newErrs ∧
    newErrs.length = fuel ∧
    (∀ i, (hi : i < newErrs.length) →
      (newErrs.get ⟨i, hi⟩).severity = if (a + i) == N then "HIGH" else "MEDIUM")) ∧
  (runLoop beh N fuel a s).2.tracker.warnings = s.tracker.warnings ∧
  (runLoop beh N fuel a s).2.tracker.get_retry_count "Installer Execution"
    = s.tracker.get_retry_count "Installer Execution" + fuel ∧
  runningCount (runLoop beh N fuel a s).2.audit.steps = runningCount s.audit.steps + fuel ∧
  failedCount (runLoop beh N fuel a s).2.audit.steps
    = failedCount s.audit.steps
      + ((List.range fuel).filter (fun i => isStepFailureB (beh (a + i)))).length ∧
  (runLoop beh N fuel a s).2.sleeps = s.sleeps ++ List.replicate (fuel - 1) 5

/-- The retry-decision-relevant shape of a step: name, status and attempt
number (the free-text details field is excluded). -/
def stepShape (st : Step) : String × String × Nat := (st.name, st.status, st.attempt)

/-- The retry-decision-relevant shape of an error record: category,
severity, suggestion and retry count (the free-text message is excluded). -/
def errShape (e : ErrorRecord) : String × String × String × Nat :=
  (e.category, e.severity, e.suggestion, e.retry_count)

/-- Everything observable about a monitor state except the free-text step
details and error messages. -/
def shape (s : MonitorState) :
    List (String × String × Nat) × List (String × String × String × Nat)
      × List WarningRecord × List (String × Nat) × List Nat × Nat × Option Nat × Bool :=
  (s.audit.steps.map stepShape, s.tracker.errors.map errShape, s.tracker.warnings,
   s.tracker.retries, s.sleeps, s.audit.start_time, s.audit.end_time, s.audit.success)

@[simp] theorem addStepS_tracker (s : MonitorState) (n st d : String) (a : Nat) :
    (addStepS s n st d a).tracker = s.tracker := rfl
@[simp] theorem addStepS_sleeps (s : MonitorState) (n st d : String) (a : Nat) :
    (addStepS s n st d a).sleeps = s.sleeps := rfl
@[simp] theorem addStepS_steps (s : MonitorState) (n st d : String) (a : Nat) :
    (addStepS s n st d a).audit.steps
      = s.audit.steps ++ [{ name := n, status := st, details := d, attempt := a }] := rfl
@[simp] theorem addErrorS_steps (s : MonitorState) (c e sev sug : String) :
    (addErrorS s c e sev sug).audit = s.audit := rfl
@[simp] theorem addErrorS_sleeps (s : MonitorState) (c e sev sug : String) :
    (addErrorS s c e sev sug).sleeps = s.sleeps := rfl
@[simp] theorem addErrorS_errors (s : MonitorState) (c e sev sug : String) :
    (addErrorS s c e sev sug).tracker.errors
      = s.tracker.errors ++ [{ category := c, error := e, severity := sev, suggestion := sug,
                               retry_count := lookupD s.tracker.retries c }] := rfl
@[simp] theorem addErrorS_warnings (s : MonitorState) (c e sev sug : String) :
    (addErrorS s c e sev sug).tracker.warnings = s.tracker.warnings := rfl
@[simp] theorem addErrorS_retries (s : MonitorState) (c e sev sug : String) :
    (addErrorS s c e sev sug).tracker.retries = s.tracker.retries := rfl
@[simp] theorem addWarningS_audit (s : MonitorState) (c w sug : String) :
    (addWarningS s c w sug).audit = s.audit := rfl
@[simp] theorem addWarningS_sleeps (s : MonitorState) (c w sug : String) :
    (addWarningS s c w sug).sleeps = s.sleeps := rfl
@[simp] theorem addWarningS_errors (s : MonitorState) (c w sug : String) :
    (addWarningS s c w sug).tracker.errors = s.tracker.errors := rfl
@[simp] theorem addWarningS_warnings (s : MonitorState) (c w sug : String) :
    (addWarningS s c w sug).tracker.warnings
      = s.tracker.warnings ++ [{ category := c, warning := w, suggestion := sug }] := rfl
@[simp] theorem addWarningS_retries (s : MonitorState) (c w sug : String) :
    (addWarningS s c w sug).tracker.retries = s.tracker.retries := rfl
@[simp] theorem incrementRetryS_audit (s : MonitorState) (c : String) :
    (incrementRetryS s c).audit = s.audit := rfl
@[simp] theorem incrementRetryS_sleeps (s : MonitorState) (c : String) :
    (incrementRetryS s c).sleeps = s.sleeps := rfl
@[simp] theorem incrementRetryS_errors (s : MonitorState) (c : String) :
    (incrementRetryS s c).tracker.errors = s.tracker.errors := rfl
@[simp] theorem incrementRetryS_warnings (s : MonitorState) (c : String) :
    (incrementRetryS s c).tracker.warnings = s.tracker.warnings := rfl
@[simp] theorem sleepS_tracker (s : MonitorState) (d : Nat) :
    (sleepS s d).tracker = s.tracker := rfl
@[simp] theorem sleepS_audit (s : MonitorState) (d : Nat) :
    (sleepS s d).audit = s.audit := rfl
@[simp] theorem sleepS_sleeps (s : MonitorState) (d : Nat) :
    (sleepS s d).sleeps = s.sleeps ++ [d] := rfl

theorem lookupD_dictSet_self (l : List (String × Nat)) (c : String) (v : Nat) :
    lookupD (dictSet l c v) c = v := by
  induction l with
  | nil => simp [dictSet, lookupD]
  | cons p rest ih =>
    obtain ⟨k, x⟩ := p
    by_cases h : (k == c) = true
    · simp [dictSet, h, lookupD]
    · simp only [dictSet, h]
      simp only [Bool.false_eq_true, if_false, lookupD, h, ih]

theorem lookupD_dictSet_ne (l : List (String × Nat)) (c c' : String) (v : Nat)
    (h : c' ≠ c) : lookupD (dictSet l c v) c' = lookupD l c' := by
  have hcc : (c == c') = false := beq_eq_false_iff_ne.mpr (Ne.symm h)
  induction l with
  | nil => simp [dictSet, lookupD, hcc]
  | cons p rest ih =>
    obtain ⟨k, x⟩ := p
    by_cases hk : (k == c) = true
    · have hk' : k = c := beq_iff_eq.mp hk
      simp [dictSet, hk, lookupD, hcc, hk']
    · simp only [dictSet, hk, Bool.false_eq_true, if_false, lookupD, ih]

theorem get_retry_foldl_not_mem :
    ∀ (cats : List String) (t : ErrorTracker) (c : String), c ∉ cats →
      (cats.foldl (fun tr cat => tr.increment_retry cat) t).get_retry_count c
        = t.get_retry_count c := by
  intro cats
  induction cats with
  | nil => intro t c _; rfl
  | cons cat rest ih =>
    intro t c h
    have hne : c ≠ cat := fun e => h (by simp [e])
    have hmem : c ∉ rest := fun hm => h (List.mem_cons_of_mem _ hm)
    simp only [List.foldl_cons]
    rw [ih _ _ hmem]
    simp [ErrorTracker.increment_retry, ErrorTracker.get_retry_count,
      lookupD_dictSet_ne _ _ _ _ hne]

/-- C10: `increment_retry c` increases `get_retry_count c` by exactly 1,
leaves every other category's counter unchanged, leaves the stored error
and warning sequences unchanged, and a category never incremented (starting
from a fresh tracker) reads 0. -/
theorem c10_increment_retry_frame :
    ∀ (t : ErrorTracker) (c : String),
      (t.increment_retry c).get_retry_count c = t.get_retry_count c + 1 ∧
      (∀ c', c' ≠ c → (t.increment_retry c).get_retry_count c' = t.get_retry_count c') ∧
      (t.increment_retry c).errors = t.errors ∧
      (t.increment_retry c).warnings = t.warnings ∧
      (∀ cats : List String, c ∉ cats →
        (cats.foldl (fun tr cat => tr.increment_retry cat) ErrorTracker.init).get_retry_count c
          = 0) := by
  intro t c
  refine ⟨?_, ?_, rfl, rfl, ?_⟩
  · simp [ErrorTracker.increment_retry, ErrorTracker.get_retry_count, lookupD_dictSet_self]
  · intro c' h
    simp [ErrorTracker.increment_retry, ErrorTracker.get_retry_count,
      lookupD_dictSet_ne _ _ _ _ h]
  · intro cats h
    rw [get_retry_foldl_not_mem cats ErrorTracker.init c h]
    rfl

/-- Witness for C10 at a concrete tracker and categories. -/
theorem c10_increment_retry_frame_witness :
    ((ErrorTracker.init.increment_retry "A").get_retry_count "A"
      = ErrorTracker.init.get_retry_count "A" + 1) ∧
    ((ErrorTracker.init.increment_retry "A").get_retry_count "B"
      = ErrorTracker.init.get_retry_count "B") ∧
    ((["B", "C"].foldl (fun tr cat => tr.increment_retry cat)
        ErrorTracker.init).get_retry_count "A" = 0) := by
  have h := c10_increment_retry_frame ErrorTracker.init "A"
  exact ⟨h.1, h.2.1 "B" (by decide), h.2.2.2.2 ["B", "C"] (by decide)⟩

/-- C7: after the post-confirmation pipeline, `audit["success"]` is true
iff the retry runner reported success and the verification result has an
empty missing-files list. -/
theorem c7_overall_success_conjunction :
    ∀ (beh : Nat → ProcSpec) (fs : FS) (s : MonitorState),
      (mainRun beh fs s).2.2.audit.success = true ↔
        ((run_installer_with_retries beh 3 s).1 = true ∧
         (verify_installation_comprehensive EXPECTED_FILES fs
             (run_installer_with_retries beh 3 s).2).1.files_missing.length = 0) := by
  intro beh fs s
  show ((run_installer_with_retries beh 3 s).1
      && ((verify_installation_comprehensive EXPECTED_FILES fs
            (run_installer_with_retries beh 3 s).2).1.files_missing.length == 0)) = true ↔ _
  simp [Bool.and_eq_true]

/-- C5 (amended): when the install root does not exist the verifier returns
with `found.count == 0` and an **empty** `missing` list (the initialised
result is returned unchanged — the manifest paths are NOT moved to
`missing`), emits exactly one CRITICAL error, and performs no per-file
checks (no found/empty classification, no warnings). -/
theorem c5_nonexistent_root_returns_empty_result :
    ∀ (expected : List String) (fs : FS) (s : MonitorState), fs.rootExists = false →
      (verify_installation_comprehensive expected fs s).1.files_found.length = 0 ∧
      (verify_installation_comprehensive expected fs s).1.files_missing = [] ∧
      (verify_installation_comprehensive expected fs s).1.files_empty = [] ∧
      (verify_installation_comprehensive expected fs s).1.total_expected = expected.length ∧
      (verify_installation_comprehensive expected fs s).2.tracker.errors
        = s.tracker.errors ++
          [{ category := "Installation Directory",
             error := "Installation directory not created: " ++ INSTALL_DIR_STR,
             severity := "CRITICAL",
             suggestion := "The installer may have failed at folder creation step",
             retry_count := lookupD s.tracker.retries "Installation Directory" }] ∧
      (verify_installation_comprehensive expected fs s).2.tracker.warnings
        = s.tracker.warnings := by
  intro expected fs s h
  simp [verify_installation_comprehensive, h]

/-- Counterexample to C5 as stated: with a nonexistent install root and the
12-entry `EXPECTED_FILES` manifest, the missing list is empty — the
manifest paths (e.g. `main.py`) are not in it, contradicting "all K
manifest paths in the missing list". -/
theorem c5_counterexample_missing_list_empty :
    (verify_installation_comprehensive EXPECTED_FILES
        { rootExists := false, files := [] } initState).1.files_missing = [] ∧
    "main.py" ∈ EXPECTED_FILES ∧ EXPECTED_FILES.length = 12 := by
  refine ⟨rfl, by decide, by decide⟩

/-- Witness for the amended C5 at a concrete nonexistent root. -/
theorem c5_nonexistent_root_returns_empty_result_witness :
    (FS.mk false []).rootExists = false ∧
    (verify_installation_comprehensive EXPECTED_FILES
        { rootExists := false, files := [] } initState).1.files_found.length = 0 ∧
    (verify_installation_comprehensive EXPECTED_FILES
        { rootExists := false, files := [] } initState).1.files_missing = [] :=
  ⟨rfl,
   (c5_nonexistent_root_returns_empty_result EXPECTED_FILES
      { rootExists := false, files := [] } initState rfl).1,
   (c5_nonexistent_root_returns_empty_result EXPECTED_FILES
      { rootExists := false, files := [] } initState rfl).2.1⟩

set_option maxRecDepth 100000

/-- Counterexample to C9 as stated: two invocations of the report builder
on byte-identical ledger/step/verification snapshots but at different
clock instants (`datetime.now()` readings 1 and 2) produce different
report text — the builder stamps the current time into the `End`/`Duration`
lines, so it is not a pure function of the snapshots alone. -/
theorem c9_counterexample_clock_dependence :
    (generate_comprehensive_report initState 1).1
      ≠ (generate_comprehensive_report initState 2).1 := by
  decide

set_option maxRecDepth 512

/-- C9 (amended): the report builder is a pure function of the ledger, the
step log, the audit start time, the audit success flag, and the current
clock reading.  With the clock reading fixed it is idempotent: a second
invocation on the state produced by the first yields byte-identical text
and the same state; and states agreeing on exactly those inputs yield
byte-identical text (no other hidden state is read). -/
theorem c9_report_pure_given_clock :
    ∀ (s t : MonitorState) (now : Nat),
      ((generate_comprehensive_report (generate_comprehensive_report s now).2 now).1
          = (generate_comprehensive_report s now).1 ∧
       (generate_comprehensive_report (generate_comprehensive_report s now).2 now).2
          = (generate_comprehensive_report s now).2) ∧
      (s.tracker = t.tracker → s.audit.steps = t.audit.steps →
        s.audit.start_time = t.audit.start_time → s.audit.success = t.audit.success →
        (generate_comprehensive_report s now).1 = (generate_comprehensive_report t now).1) := by
  intro s t now
  constructor
  · exact ⟨rfl, rfl⟩
  · intro h1 h2 h3 h4
    show reportText s.tracker s.audit.steps s.audit.start_time now s.audit.success
        = reportText t.tracker t.audit.steps t.audit.start_time now t.audit.success
    rw [h1, h2, h3, h4]

/-- Witness for the amended C9: two states differing only in data the
report never reads (the backoff-sleep trace) produce identical text at the
same clock instant. -/
theorem c9_report_pure_given_clock_witness :
    (generate_comprehensive_report initState 3).1
      = (generate_comprehensive_report { initState with sleeps := [7] } 3).1 :=
  (c9_report_pure_given_clock initState { initState with sleeps := [7] } 3).2 rfl rfl rfl rfl

/-- C8: the installer validator returns true exactly when the existence
check and the text-decodability check both pass; file size below 100
bytes and fewer than 2 content markers each produce at most a warning, the
extension match is a recorded boolean fact, and none of the three is by
itself fatal — the appended errors come only from absence or
undecodability. -/
theorem c8_validator_verdict :
    ∀ (f : InstallerFile) (s : MonitorState),
      (verify_installer_comprehensive f s).1 = (f.present && f.content.isSome) ∧
      (verify_installer_comprehensive f s).2.1.is_batch_file
        = (f.present && (f.suffix.toLower == ".bat")) ∧
      (f.present = true → f.size < 100 →
        ∃ w ∈ (verify_installer_comprehensive f s).2.2.tracker.warnings,
          w.category = "Installer Size") ∧
      (∀ c, f.present = true → f.content = some c →
        (key_markers.filter (fun marker => strContains c marker)).length < 2 →
        ∃ w ∈ (verify_installer_comprehensive f s).2.2.tracker.warnings,
          w.category = "Installer Content") ∧
      (verify_installer_comprehensive f s).2.2.tracker.errors
        = s.tracker.errors ++
          (if f.present = false then
            [{ category := "Installer Verification",
               error := "File not found: " ++ BAT_FILE_STR,
               severity := "CRITICAL",
               suggestion := "Ensure \x27installer m3u builder.bat\x27 is in: " ++ CWD_STR,
               retry_count := lookupD s.tracker.retries "Installer Verification" }]
           else if f.content.isSome then []
           else
            [{ category := "Installer Encoding",
               error := "Batch file has invalid encoding",
               severity := "HIGH",
               suggestion := "Re-download the installer file",
               retry_count := lookupD s.tracker.retries "Installer Encoding" }]) := by
  intro f s
  obtain ⟨present, size, suffix, content⟩ := f
  cases present with
  | false =>
    refine ⟨rfl, rfl, ?_, ?_, ?_⟩
    · intro h; exact absurd h (by simp)
    · intro c h; exact absurd h (by simp)
    · simp [verify_installer_comprehensive]
  | true =>
    cases content with
    | none =>
      refine ⟨?_, ?_, ?_, ?_, ?_⟩
      · by_cases hsz : size < 100 <;> simp [verify_installer_comprehensive, hsz]
      · by_cases hsz : size < 100 <;> simp [verify_installer_comprehensive, hsz]
      · intro _ hsz
        refine ⟨{ category := "Installer Size",
                  warning := "Installer file very small: " ++ toString size ++ " bytes",
                  suggestion := "File may be corrupted or incomplete" }, ?_, rfl⟩
        simp [verify_installer_comprehensive, hsz]
      · intro c _ hc; exact absurd hc (by simp)
      · by_cases hsz : size < 100 <;> simp [verify_installer_comprehensive, hsz]
    | some c =>
      refine ⟨?_, ?_, ?_, ?_, ?_⟩
      · by_cases hsz : size < 100 <;>
          by_cases hm : (key_markers.filter (fun marker => strContains c marker)).length < 2 <;>
          simp [verify_installer_comprehensive, hsz, hm]
      · by_cases hsz : size < 100 <;>
          by_cases hm : (key_markers.filter (fun marker => strContains c marker)).length < 2 <;>
          simp [verify_installer_comprehensive, hsz, hm]
      · intro _ hsz
        refine ⟨{ category := "Installer Size",
                  warning := "Installer file very small: " ++ toString size ++ " bytes",
                  suggestion := "File may be corrupted or incomplete" }, ?_, rfl⟩
        by_cases hm : (key_markers.filter (fun marker => strContains c marker)).length < 2 <;>
          simp [verify_installer_comprehensive, hsz, hm]
      · intro c' _ hc hm
        have hcc : c' = c := by injection hc.symm
        subst hcc
        refine ⟨{ category := "Installer Content",
                  warning := "Missing expected batch file markers",
                  suggestion := "File may not be a valid installer" }, ?_, rfl⟩
        by_cases hsz : size < 100 <;> simp [verify_installer_comprehensive, hsz, hm]
      · by_cases hsz : size < 100 <;>
          by_cases hm : (key_markers.filter (fun marker => strContains c marker)).length < 2 <;>
          simp [verify_installer_comprehensive, hsz, hm]

/-- Witness for C8: an existing, decodable installer below the size
threshold and without markers — the verdict is true and only warnings are
recorded. -/
theorem c8_validator_verdict_witness :
    (∃ w ∈ (verify_installer_comprehensive
        { present := true, size := 50, suffix := ".bat", content := some "hello" }
        initState).2.2.tracker.warnings, w.category = "Installer Size") ∧
    (∃ w ∈ (verify_installer_comprehensive
        { present := true, size := 50, suffix := ".bat", content := some "hello" }
        initState).2.2.tracker.warnings, w.category = "Installer Content") := by
  have h := c8_validator_verdict
    { present := true, size := 50, suffix := ".bat", content := some "hello" } initState
  exact ⟨h.2.2.1 rfl (by decide), h.2.2.2.1 "hello" rfl rfl (by decide)⟩

theorem classifyLoop_frame (fs : FS) :
    ∀ (ps : List String) (v : Verification) (s : MonitorState),
      (classifyLoop fs ps v s).1.total_expected = v.total_expected ∧
      (classifyLoop fs ps v s).1.install_size_bytes = v.install_size_bytes ∧
      (classifyLoop fs ps v s).2.tracker.errors = s.tracker.errors ∧
      (classifyLoop fs ps v s).2.tracker.retries = s.tracker.retries ∧
      (classifyLoop fs ps v s).2.audit = s.audit ∧
      (classifyLoop fs ps v s).2.sleeps = s.sleeps := by
  intro ps
  induction ps with
  | nil => intro v s; exact ⟨rfl, rfl, rfl, rfl, rfl, rfl⟩
  | cons p rest ih =>
    intro v s
    cases hl : fs.lookupFile p with
    | some file_size =>
      by_cases hz : (file_size == 0) = true
      · simpa only [classifyLoop, hl, hz, if_true] using ih _ _
      · simp only [classifyLoop, hl, hz, Bool.false_eq_true, if_false]
        exact ih _ _
    | none =>
      simp only [classifyLoop, hl]
      exact ih _ _

theorem classifyLoop_mono (fs : FS) :
    ∀ (ps : List String) (v : Verification) (s : MonitorState),
      ∃ df dm de dw,
        (classifyLoop fs ps v s).1.files_found = v.files_found ++ df ∧
        (classifyLoop fs ps v s).1.files_missing = v.files_missing ++ dm ∧
        (classifyLoop fs ps v s).1.files_empty = v.files_empty ++ de ∧
        (classifyLoop fs ps v s).2.tracker.warnings = s.tracker.warnings ++ dw ∧
        (∀ q ∈ dm, q ∈ ps ∧ fs.lookupFile q = none) := by
  intro ps
  induction ps with
  | nil =>
    intro v s
    exact ⟨[], [], [], [], by simp [classifyLoop], by simp [classifyLoop],
      by simp [classifyLoop], by simp [classifyLoop], by simp⟩
  | cons p rest ih =>
    intro v s
    cases hl : fs.lookupFile p with
    | some file_size =>
      cases hze : (file_size == 0) with
      | true =>
        obtain ⟨df, dm, de, dw, h1, h2, h3, h4, h5⟩ := ih
          { v with
            files_found := v.files_found
              ++ [{ path := p, size_bytes := file_size, is_empty := file_size == 0 }],
            files_empty := (v.files_empty ++ [p]) }
          (addWarningS s "File Content" ("Empty file: " ++ p)
            "File was created but contains no data")
        simp only [hze] at h1 h2 h3 h4
        refine ⟨{ path := p, size_bytes := file_size, is_empty := true } :: df,
          dm, p :: de,
          { category := "File Content", warning := "Empty file: " ++ p,
            suggestion := "File was created but contains no data" } :: dw, ?_, ?_, ?_, ?_, ?_⟩
        · simp only [classifyLoop, hl, hze, if_true]
          simpa using h1
        · simp only [classifyLoop, hl, hze, if_true]
          simpa using h2
        · simp only [classifyLoop, hl, hze, if_true]
          simpa using h3
        · simp only [classifyLoop, hl, hze, if_true]
          simp only [addWarningS_warnings] at h4
          simpa using h4
        · intro q hq
          obtain ⟨hq1, hq2⟩ := h5 q hq
          exact ⟨List.mem_cons_of_mem _ hq1, hq2⟩
      | false =>
        obtain ⟨df, dm, de, dw, h1, h2, h3, h4, h5⟩ := ih
          { v with
            files_found := v.files_found
              ++ [{ path := p, size_bytes := file_size, is_empty := file_size == 0 }] } s
        simp only [hze] at h1 h2 h3 h4
        refine ⟨{ path := p, size_bytes := file_size, is_empty := false } :: df,
          dm, de, dw, ?_, ?_, ?_, ?_, ?_⟩
        · simp only [classifyLoop, hl, hze, Bool.false_eq_true, if_false]
          simpa using h1
        · simp only [classifyLoop, hl, hze, Bool.false_eq_true, if_false]
          simpa using h2
        · simp only [classifyLoop, hl, hze, Bool.false_eq_true, if_false]
          simpa using h3
        · simp only [classifyLoop, hl, hze, Bool.false_eq_true, if_false]
          simpa using h4
        · intro q hq
          obtain ⟨hq1, hq2⟩ := h5 q hq
          exact ⟨List.mem_cons_of_mem _ hq1, hq2⟩
    | none =>
      obtain ⟨df, dm, de, dw, h1, h2, h3, h4, h5⟩ := ih
        { v with files_missing := v.files_missing ++ [p] } s
      refine ⟨df, p :: dm, de, dw, ?_, ?_, ?_, ?_, ?_⟩
      · simp only [classifyLoop, hl]
        simpa using h1
      · simp only [classifyLoop, hl]
        simpa using h2
      · simp only [classifyLoop, hl]
        simpa using h3
      · simp only [classifyLoop, hl]
        simpa using h4
      · intro q hq
        rcases List.mem_cons.mp hq with hq | hq
        · exact ⟨by simp [hq], by rw [hq]; exact hl⟩
        · obtain ⟨hq1, hq2⟩ := h5 q hq
          exact ⟨List.mem_cons_of_mem _ hq1, hq2⟩

theorem classifyLoop_empty_file_mem (fs : FS) :
    ∀ (ps : List String) (v : Verification) (s : MonitorState) (p : String),
      p ∈ ps → fs.lookupFile p = some 0 →
      ({ path := p, size_bytes := 0, is_empty := true } : FoundFile)
          ∈ (classifyLoop fs ps v s).1.files_found ∧
      p ∈ (classifyLoop fs ps v s).1.files_empty ∧
      ∃ w ∈ (classifyLoop fs ps v s).2.tracker.warnings,
        w.category = "File Content" ∧ w.warning = "Empty file: " ++ p := by
  intro ps
  induction ps with
  | nil => intro v s p h _; exact absurd h (List.not_mem_nil p)
  | cons q rest ih =>
    intro v s p hmem hlook
    rcases List.mem_cons.mp hmem with heq | hrest
    · subst heq
      simp only [classifyLoop, hlook, beq_self_eq_true, if_true]
      obtain ⟨df, dm, de, dw, h1, h2, h3, h4, _⟩ := classifyLoop_mono fs rest
        { v with
          files_found := v.files_found ++ [{ path := p, size_bytes := 0, is_empty := true }],
          files_empty := (v.files_empty ++ [p]) }
        (addWarningS s "File Content" ("Empty file: " ++ p)
          "File was created but contains no data")
      refine ⟨?_, ?_, ?_⟩
      · rw [h1]
        simp
      · rw [h3]
        simp
      · refine ⟨({ category := "File Content", warning := "Empty file: " ++ p,
                   suggestion := "File was created but contains no data" } : WarningRecord),
            ?_, rfl, rfl⟩
        rw [h4]
        simp
    · cases hl : fs.lookupFile q with
      | some file_size =>
        cases hze : (file_size == 0) with
        | true =>
          simp only [classifyLoop, hl, hze, if_true]
          exact ih _ _ p hrest hlook
        | false =>
          simp only [classifyLoop, hl, hze, Bool.false_eq_true, if_false]
          exact ih _ _ p hrest hlook
      | none =>
        simp only [classifyLoop, hl]
        exact ih _ _ p hrest hlook

/-- C6: with an existing install root, the verifier emits exactly one
aggregate missing-files error when the missing count is positive (severity
HIGH iff missing count > 5, else MEDIUM), plus one separate CRITICAL error
exactly when the found count is 0; zero-byte manifest files are classified
as found (with an empty-file warning), never as missing. -/
theorem c6_missing_aggregate_and_empty_files :
    ∀ (expected : List String) (fs : FS) (s : MonitorState), fs.rootExists = true →
      ((verify_installation_comprehensive expected fs s).2.tracker.errors
        = s.tracker.errors
          ++ (if (verify_installation_comprehensive expected fs s).1.files_missing.length > 0
              then
                [{ category := "File Verification",
                   error := toString
                       (verify_installation_comprehensive expected fs s).1.files_missing.length
                     ++ " files missing, "
                     ++ toString
                       (verify_installation_comprehensive expected fs s).1.files_empty.length
                     ++ " files empty",
                   severity :=
                     if (verify_installation_comprehensive expected fs s).1.files_missing.length
                         > 5
                     then "HIGH" else "MEDIUM",
                   suggestion := "Check network connection and GitHub availability",
                   retry_count := lookupD s.tracker.retries "File Verification" }]
              else [])
          ++ (if (verify_installation_comprehensive expected fs s).1.files_found.length == 0
              then
                [{ category := "Installation",
                   error := "No expected files were installed",
                   severity := "CRITICAL",
                   suggestion :=
                     "The installer may be downloading to wrong location or failing completely",
                   retry_count := lookupD s.tracker.retries "Installation" }]
              else [])) ∧
      (∀ p, p ∈ expected → fs.lookupFile p = some 0 →
        ({ path := p, size_bytes := 0, is_empty := true } : FoundFile)
            ∈ (verify_installation_comprehensive expected fs s).1.files_found ∧
        p ∈ (verify_installation_comprehensive expected fs s).1.files_empty ∧
        p ∉ (verify_installation_comprehensive expected fs s).1.files_missing ∧
        ∃ w ∈ (verify_installation_comprehensive expected fs s).2.tracker.warnings,
          w.category = "File Content" ∧ w.warning = "Empty file: " ++ p) := by
  intro expected fs s h
  have hf := classifyLoop_frame fs expected
    { files_found := [], files_missing := [], files_empty := [],
      total_expected := expected.length,
      install_size_bytes := (fs.files.map (fun q => q.2)).sum }
    (addStepS s "Comprehensive installation verification" "RUNNING" "" 1)
  obtain ⟨hte, hib, herr, hret, haud, hsl⟩ := hf
  constructor
  · simp only [verify_installation_comprehensive, h]
    simp only [addStepS_tracker] at herr hret
    by_cases h1 :
        (classifyLoop fs expected
          { files_found := [], files_missing := [], files_empty := [],
            total_expected := expected.length,
            install_size_bytes := (fs.files.map (fun q => q.2)).sum }
          (addStepS s "Comprehensive installation verification" "RUNNING" "" 1)).1.files_missing.length > 0 <;>
      by_cases h2 :
        ((classifyLoop fs expected
          { files_found := [], files_missing := [], files_empty := [],
            total_expected := expected.length,
            install_size_bytes := (fs.files.map (fun q => q.2)).sum }
          (addStepS s "Comprehensive installation verification" "RUNNING" "" 1)).1.files_found.length == 0) = true <;>
      simp [h1, h2, herr, hret]
  · intro p hp hl0
    have hmem := classifyLoop_empty_file_mem fs expected
      { files_found := [], files_missing := [], files_empty := [],
        total_expected := expected.length,
        install_size_bytes := (fs.files.map (fun q => q.2)).sum }
      (addStepS s "Comprehensive installation verification" "RUNNING" "" 1) p hp hl0
    obtain ⟨hm1, hm2, hm3⟩ := hmem
    obtain ⟨df, dm, de, dw, g1, g2, g3, g4, g5⟩ := classifyLoop_mono fs expected
      { files_found := [], files_missing := [], files_empty := [],
        total_expected := expected.length,
        install_size_bytes := (fs.files.map (fun q => q.2)).sum }
      (addStepS s "Comprehensive installation verification" "RUNNING" "" 1)
    have hnotmiss : p ∉ (classifyLoop fs expected
        { files_found := [], files_missing := [], files_empty := [],
          total_expected := expected.length,
          install_size_bytes := (fs.files.map (fun q => q.2)).sum }
        (addStepS s "Comprehensive installation verification" "RUNNING" "" 1)).1.files_missing := by
      rw [g2]
      intro hin
      rcases List.mem_append.mp hin with hin | hin
      · simp at hin
      · obtain ⟨_, hnone⟩ := g5 p hin
        rw [hnone] at hl0
        exact Option.noConfusion hl0
    have k1 : (verify_installation_comprehensive expected fs s).1
        = (classifyLoop fs expected
            { files_found := [], files_missing := [], files_empty := [],
              total_expected := expected.length,
              install_size_bytes := (fs.files.map (fun q => q.2)).sum }
            (addStepS s "Comprehensive installation verification" "RUNNING" "" 1)).1 := by
      simp [verify_installation_comprehensive, h]
    have k2 : (verify_installation_comprehensive expected fs s).2.tracker.warnings
        = (classifyLoop fs expected
            { files_found := [], files_missing := [], files_empty := [],
              total_expected := expected.length,
              install_size_bytes := (fs.files.map (fun q => q.2)).sum }
            (addStepS s "Comprehensive installation verification" "RUNNING" "" 1)).2.tracker.warnings := by
      by_cases h1 :
          (classifyLoop fs expected
            { files_found := [], files_missing := [], files_empty := [],
              total_expected := expected.length,
              install_size_bytes := (fs.files.map (fun q => q.2)).sum }
            (addStepS s "Comprehensive installation verification" "RUNNING" "" 1)).1.files_missing.length > 0 <;>
        by_cases h2 :
          ((classifyLoop fs expected
            { files_found := [], files_missing := [], files_empty := [],
              total_expected := expected.length,
              install_size_bytes := (fs.files.map (fun q => q.2)).sum }
            (addStepS s "Comprehensive installation verification" "RUNNING" "" 1)).1.files_found.length == 0) = true <;>
        simp [verify_installation_comprehensive, h, h1, h2]
    refine ⟨?_, ?_, ?_, ?_⟩
    · rw [k1]; exact hm1
    · rw [k1]; exact hm2
    · rw [k1]; exact hnotmiss
    · obtain ⟨w, hw, hwc, hww⟩ := hm3
      exact ⟨w, by rw [k2]; exact hw, hwc, hww⟩

/-- Witness for C6 at a concrete existing root containing one zero-byte
manifest file among two expected entries. -/
theorem c6_missing_aggregate_and_empty_files_witness :
    ({ path := "a", size_bytes := 0, is_empty := true } : FoundFile)
        ∈ (verify_installation_comprehensive ["a", "b"]
            { rootExists := true, files := [("a", 0)] } initState).1.files_found ∧
    "a" ∉ (verify_installation_comprehensive ["a", "b"]
            { rootExists := true, files := [("a", 0)] } initState).1.files_missing := by
  have h := c6_missing_aggregate_and_empty_files ["a", "b"]
    { rootExists := true, files := [("a", 0)] } initState rfl
  have h2 := h.2 "a" (by decide) rfl
  exact ⟨h2.1, h2.2.2.1⟩

theorem waitLoop_exits (exitTime : Nat) (code : Int) :
    ∀ (fuel t : Nat), exitTime ≤ t + fuel → waitLoop exitTime code fuel t = some code := by
  intro fuel
  induction fuel with
  | zero => intro t h; simpa [waitLoop] using h
  | succ fuel ih =>
    intro t h
    by_cases h1 : exitTime ≤ t + 1
    · simp [waitLoop, h1]
    · have : exitTime ≤ (t + 1) + fuel := by omega
      simp [waitLoop, h1, ih (t + 1) this]

theorem waitLoop_running (exitTime : Nat) (code : Int) :
    ∀ (fuel t : Nat), t + fuel < exitTime → waitLoop exitTime code fuel t = none := by
  intro fuel
  induction fuel with
  | zero =>
    intro t h
    have : ¬exitTime ≤ t := by omega
    simp [waitLoop, this]
  | succ fuel ih =>
    intro t h
    have h1 : ¬exitTime ≤ t + 1 := by omega
    have : (t + 1) + fuel < exitTime := by omega
    simp [waitLoop, h1, ih (t + 1) this]

theorem boundedWait_exits (exitTime : Nat) (code : Int) (h : exitTime ≤ 300) :
    boundedWait 300 exitTime code = some code :=
  waitLoop_exits exitTime code 300 0 (by omega)

theorem boundedWait_timeout (exitTime : Nat) (code : Int) (h : 300 < exitTime) :
    boundedWait 300 exitTime code = none :=
  waitLoop_running exitTime code 300 0 (by omega)

theorem nonzeroExitB_isFailureB (p : ProcSpec) (h : nonzeroExitB p = true) :
    isFailureB p = true := by
  cases p with
  | launchFail msg => rfl
  | proc exitTime code =>
    simp only [nonzeroExitB, Bool.and_eq_true, decide_eq_true_eq, Bool.not_eq_true',
      beq_eq_false_iff_ne, ne_eq] at h
    obtain ⟨h1, h2⟩ := h
    simp [isFailureB, boundedWait_exits exitTime code h1, h2]

theorem nonzeroExitB_isStepFailureB (p : ProcSpec) (h : nonzeroExitB p = true) :
    isStepFailureB p = true := by
  cases p with
  | launchFail msg => simp [nonzeroExitB] at h
  | proc exitTime code =>
    simp only [nonzeroExitB, Bool.and_eq_true, decide_eq_true_eq, Bool.not_eq_true',
      beq_eq_false_iff_ne, ne_eq] at h
    obtain ⟨h1, h2⟩ := h
    simp [isStepFailureB, boundedWait_exits exitTime code h1, h2]

@[simp] theorem failedCount_append_single (l : List Step) (st : Step) :
    failedCount (l ++ [st]) = failedCount l + (if st.status == "FAILED" then 1 else 0) := by
  by_cases h : (st.status == "FAILED") = true <;>
    simp [failedCount, List.filter_append, List.filter, h]

@[simp] theorem runningCount_append_single (l : List Step) (st : Step) :
    runningCount (l ++ [st]) = runningCount l + (if st.status == "RUNNING" then 1 else 0) := by
  by_cases h : (st.status == "RUNNING") = true <;>
    simp [runningCount, List.filter_append, List.filter, h]

theorem get_retry_increment_self (t : ErrorTracker) (c : String) :
    (t.increment_retry c).get_retry_count c = t.get_retry_count c + 1 := by
  simp [ErrorTracker.increment_retry, ErrorTracker.get_retry_count, lookupD_dictSet_self]

theorem range_succ_filter_length (p : Nat → Bool) (n : Nat) :
    ((List.range (n + 1)).filter p).length
      = (if p 0 then 1 else 0) + ((List.range n).filter (fun i => p (i + 1))).length := by
  have hmap : ∀ (l : List Nat), ((l.map (fun i => i + 1)).filter p).length
      = (l.filter (fun i => p (i + 1))).length := by
    intro l
    induction l with
    | nil => rfl
    | cons x xs ih =>
      by_cases h : p (x + 1) = true <;> simp [List.filter, h, ih]
  rw [List.range_succ_eq_map]
  by_cases h : p 0 = true <;>
    simp [List.filter, h, Nat.succ_eq_add_one, hmap (List.range n), Nat.add_comm]

@[simp] theorem incrementRetryS_retries (s : MonitorState) (c : String) :
    (incrementRetryS s c).tracker.retries
      = dictSet s.tracker.retries c (lookupD s.tracker.retries c + 1) := rfl

theorem runLoop_all_fail_glue (beh : Nat → ProcSpec) (N fuel a : Nat)
    (s s' : MonitorState)
    (hA : a + (fuel + 1) = N + 1)
    (hstep : runLoop beh N (fuel + 1) a s
      = if a < N then runLoop beh N fuel (a + 1) (sleepS s' 5) else (false, s'))
    (herr : ∃ R : ErrorRecord, s'.tracker.errors = s.tracker.errors ++ [R] ∧
      R.severity = if a == N then "HIGH" else "MEDIUM")
    (hwar : s'.tracker.warnings = s.tracker.warnings)
    (hret : s'.tracker.get_retry_count "Installer Execution"
      = s.tracker.get_retry_count "Installer Execution" + 1)
    (hrun : runningCount s'.audit.steps = runningCount s.audit.steps + 1)
    (hfld : failedCount s'.audit.steps
      = failedCount s.audit.steps + (if isStepFailureB (beh a) then 1 else 0))
    (hslp : s'.sleeps = s.sleeps)
    (hfail : ∀ k, a ≤ k → k ≤ N → isFailureB (beh k) = true)
    (ih : ∀ (a' : Nat) (t : MonitorState), a' + fuel = N + 1 → 1 ≤ a' →
      (∀ k, a' ≤ k → k ≤ N → isFailureB (beh k) = true) → AllFailP beh N fuel a' t) :
    AllFailP beh N (fuel + 1) a s := by
  obtain ⟨R, hR, hRsev⟩ := herr
  rcases Nat.lt_or_ge a N with hlt | hge
  · obtain ⟨f', rfl⟩ : ∃ f', fuel = f' + 1 := ⟨fuel - 1, by omega⟩
    have hih := ih (a + 1) (sleepS s' 5) (by omega) (by omega)
      (fun k hk1 hk2 => hfail k (by omega) hk2)
    obtain ⟨hihF, ⟨rest, hre, hrl, hrs⟩, hihW, hihR, hihRun, hihFld, hihSlp⟩ := hih
    have hfun : (fun i => isStepFailureB (beh (a + (i + 1))))
        = (fun i => isStepFailureB (beh ((a + 1) + i))) := by
      funext i
      rw [show a + (i + 1) = (a + 1) + i by omega]
    refine ⟨?_, ⟨R :: rest, ?_, ?_, ?_⟩, ?_, ?_, ?_, ?_, ?_⟩
    · rw [hstep, if_pos hlt]
      exact hihF
    · rw [hstep, if_pos hlt, hre]
      simp only [sleepS_tracker]
      rw [hR]
      simp
    · simpa using hrl
    · intro i hi
      cases i with
      | zero => simpa using hRsev
      | succ j =>
        have hj : j < rest.length := by
          simp only [List.length_cons] at hi
          omega
        have hsj := hrs j hj
        rw [show a + (j + 1) = (a + 1) + j by omega]
        simpa using hsj
    · rw [hstep, if_pos hlt, hihW]
      simp only [sleepS_tracker]
      exact hwar
    · rw [hstep, if_pos hlt, hihR]
      simp only [sleepS_tracker]
      rw [hret]
      omega
    · rw [hstep, if_pos hlt, hihRun]
      simp only [sleepS_audit]
      rw [hrun]
      omega
    · rw [hstep, if_pos hlt, hihFld]
      simp only [sleepS_audit]
      rw [hfld]
      rw [range_succ_filter_length (fun i => isStepFailureB (beh (a + i))) (f' + 1)]
      simp only [Nat.add_zero, hfun]
      omega
    · rw [hstep, if_pos hlt, hihSlp]
      simp only [sleepS_sleeps]
      rw [hslp]
      simp [List.replicate_succ]
  · have hfuel : fuel = 0 := by omega
    have haNe : a = N := by omega
    subst hfuel
    have hnl : ¬(a < N) := by omega
    refine ⟨?_, ⟨[R], ?_, by simp, ?_⟩, ?_, ?_, ?_, ?_, ?_⟩
    · rw [hstep, if_neg hnl]
    · rw [hstep, if_neg hnl]
      exact hR
    · intro i hi
      simp only [List.length_singleton] at hi
      have hi0 : i = 0 := by omega
      subst hi0
      simpa [haNe] using hRsev
    · rw [hstep, if_neg hnl]
      exact hwar
    · rw [hstep, if_neg hnl]
      exact hret
    · rw [hstep, if_neg hnl]
      exact hrun
    · rw [hstep, if_neg hnl]
      rw [hfld]
      cases hsf : isStepFailureB (beh a) <;>
        simp [List.range_succ, List.filter, hsf]
    · rw [hstep, if_neg hnl]
      rw [hslp]
      simp

theorem runLoop_all_fail (beh : Nat → ProcSpec) (N : Nat) :
    ∀ (fuel a : Nat) (s : MonitorState), a + fuel = N + 1 → 1 ≤ a →
      (∀ k, a ≤ k → k ≤ N → isFailureB (beh k) = true) →
      AllFailP beh N fuel a s := by
  intro fuel
  induction fuel with
  | zero =>
    intro a s hA h1 hfail
    refine ⟨rfl, ⟨[], by simp [runLoop], rfl, ?_⟩, rfl, by simp [runLoop],
      by simp [runLoop], ?_, ?_⟩
    · intro i hi
      exact absurd hi (by simp)
    · simp [runLoop, List.range_zero]
    · simp [runLoop]
  | succ fuel ih =>
    intro a s hA h1 hfail
    have haN : a ≤ N := by omega
    have hfa := hfail a le_rfl haN
    cases hb : beh a with
    | launchFail msg =>
      apply runLoop_all_fail_glue beh N fuel a s
        (addErrorS
          (addStepS (incrementRetryS s "Installer Execution") (attemptName a) "RUNNING" "" a)
          "Installer Execution" ("Attempt " ++ toString a ++ " crashed: " ++ msg)
          (if a == N then "HIGH" else "MEDIUM") "") hA ?_ ⟨_, rfl, rfl⟩ rfl
        (lookupD_dictSet_self _ _ _) (by simp) (by simp [isStepFailureB, hb]) rfl hfail ih
      simp only [runLoop, hb]
    | proc exitTime code =>
      have hbw : (boundedWait 300 exitTime code == some 0) = false := by
        rw [hb] at hfa
        simpa [isFailureB] using hfa
      apply runLoop_all_fail_glue beh N fuel a s
        (addErrorS
          (addStepS
            (addStepS (incrementRetryS s "Installer Execution") (attemptName a) "RUNNING" "" a)
            (attemptName a) "FAILED" (statusMsg (boundedWait 300 exitTime code)) a)
          "Installer Execution"
          ("Attempt " ++ toString a ++ " failed: " ++ statusMsg (boundedWait 300 exitTime code))
          (if a == N then "HIGH" else "MEDIUM") (retrySuggestion a N)) hA ?_ ⟨_, rfl, rfl⟩ rfl
        (lookupD_dictSet_self _ _ _)
        (by simp [runningCount, List.filter_append, List.filter])
        (by simp [failedCount, List.filter_append, List.filter, isStepFailureB, hb, hbw])
        rfl hfail ih
      simp only [runLoop, hb, hbw, Bool.false_eq_true, if_false]

theorem filter_length_of_all {α : Type} (p : α → Bool) :
    ∀ l : List α, (∀ x ∈ l, p x = true) → (l.filter p).length = l.length := by
  intro l
  induction l with
  | nil => intro _; rfl
  | cons x xs ih =>
    intro h
    have hx : p x = true := h x (by simp)
    simp [List.filter, hx, ih (fun y hy => h y (by simp [hy]))]

/-- C1: if every attempt exits within the bounded wait with a non-zero
code, the retry runner performs exactly N attempts (N retry-counter
increments and N `RUNNING` steps), records N `FAILED` steps, and returns
failure. -/
theorem c1_all_nonzero_exhausts_attempts :
    ∀ (beh : Nat → ProcSpec) (N : Nat) (s : MonitorState),
      (∀ k, 1 ≤ k → k ≤ N → nonzeroExitB (beh k) = true) →
      (run_installer_with_retries beh N s).1 = false ∧
      (run_installer_with_retries beh N s).2.tracker.get_retry_count "Installer Execution"
        = s.tracker.get_retry_count "Installer Execution" + N ∧
      runningCount (run_installer_with_retries beh N s).2.audit.steps
        = runningCount s.audit.steps + N ∧
      failedCount (run_installer_with_retries beh N s).2.audit.steps
        = failedCount s.audit.steps + N := by
  intro beh N s h
  simp only [run_installer_with_retries]
  have hP := runLoop_all_fail beh N N 1 s (by omega) le_rfl
    (fun k hk1 hk2 => nonzeroExitB_isFailureB _ (h k hk1 hk2))
  unfold AllFailP at hP
  obtain ⟨hF, _, _, hret, hrun, hfld, _⟩ := hP
  refine ⟨hF, hret, hrun, ?_⟩
  rw [hfld]
  have hall : ((List.range N).filter (fun i => isStepFailureB (beh (1 + i)))).length
      = (List.range N).length := by
    apply filter_length_of_all
    intro i hi
    have hiN : i < N := List.mem_range.mp hi
    exact nonzeroExitB_isStepFailureB _ (h (1 + i) (by omega) (by omega))
  rw [hall, List.length_range]

/-- Witness for C1: three attempts all exiting with code 2 after 1 second. -/
theorem c1_all_nonzero_exhausts_attempts_witness :
    (run_installer_with_retries (fun _ => ProcSpec.proc 1 2) 3 initState).1 = false ∧
    (run_installer_with_retries (fun _ => ProcSpec.proc 1 2) 3
        initState).2.tracker.get_retry_count "Installer Execution"
      = initState.tracker.get_retry_count "Installer Execution" + 3 := by
  have h := c1_all_nonzero_exhausts_attempts (fun _ => ProcSpec.proc 1 2) 3 initState
    (by intro k _ _; show nonzeroExitB (ProcSpec.proc 1 2) = true; decide)
  exact ⟨h.1, h.2.1⟩

/-- Counterexample to C3 as stated: a single attempt whose `subprocess`
launch raises an exception is a failed attempt (it returns failure and
records one ErrorRecord), yet the runner appends no `FAILED` Step — the
exception handler at source lines 414-423 calls `add_error` but never
`add_step`. -/
theorem c3_counterexample_crash_appends_no_failed_step :
    (run_installer_with_retries (fun _ => ProcSpec.launchFail "boom") 1 initState).1 = false ∧
    (run_installer_with_retries (fun _ => ProcSpec.launchFail "boom") 1
        initState).2.tracker.errors.length = 1 ∧
    failedCount (run_installer_with_retries (fun _ => ProcSpec.launchFail "boom") 1
        initState).2.audit.steps = 0 := by
  refine ⟨rfl, rfl, by decide⟩

/-- C3 (amended): every failed attempt — non-zero exit, timeout, or launch
exception — emits exactly one ErrorRecord with severity HIGH when the
attempt is the last allowed one and MEDIUM otherwise, and the runner (a
total function) returns failure rather than propagating the exception; a
fixed 5-unit backoff is slept after each non-final failed attempt; a
`FAILED` Step is appended exactly for the non-zero-exit and timeout
failures — a launch exception appends no `FAILED` Step. -/
theorem c3_failed_attempt_handling :
    ∀ (beh : Nat → ProcSpec) (N : Nat) (s : MonitorState),
      (∀ k, 1 ≤ k → k ≤ N → isFailureB (beh k) = true) →
      (run_installer_with_retries beh N s).1 = false ∧
      (∃ newErrs : List ErrorRecord,
        (run_installer_with_retries beh N s).2.tracker.errors
          = s.tracker.errors ++ newErrs ∧
        newErrs.length = N ∧
        (∀ i, (hi : i < newErrs.length) →
          (newErrs.get ⟨i, hi⟩).severity = if (i + 1) == N then "HIGH" else "MEDIUM")) ∧
      failedCount (run_installer_with_retries beh N s).2.audit.steps
        = failedCount s.audit.steps
          + ((List.range N).filter (fun i => isStepFailureB (beh (i + 1)))).length ∧
      (run_installer_with_retries beh N s).2.sleeps
        = s.sleeps ++ List.replicate (N - 1) 5 := by
  intro beh N s h
  simp only [run_installer_with_retries]
  have hP := runLoop_all_fail beh N N 1 s (by omega) le_rfl h
  unfold AllFailP at hP
  obtain ⟨hF, ⟨newErrs, he1, he2, he3⟩, _, _, _, hfld, hslp⟩ := hP
  refine ⟨hF, ⟨newErrs, he1, he2, ?_⟩, ?_, hslp⟩
  · intro i hi
    have := he3 i hi
    rw [show (1 : Nat) + i = i + 1 by omega] at this
    exact this
  · rw [hfld]
    have hfun : (fun i => isStepFailureB (beh (1 + i)))
        = (fun i => isStepFailureB (beh (i + 1))) := by
      funext i
      rw [show (1 : Nat) + i = i + 1 by omega]
    rw [hfun]

/-- Witness for C3: two attempts, the first a launch exception and the
second a non-zero exit — failure result with one 5-unit backoff. -/
theorem c3_failed_attempt_handling_witness :
    (run_installer_with_retries
        (fun j => if j = 1 then ProcSpec.launchFail "boom" else ProcSpec.proc 1 1)
        2 initState).1 = false ∧
    (run_installer_with_retries
        (fun j => if j = 1 then ProcSpec.launchFail "boom" else ProcSpec.proc 1 1)
        2 initState).2.sleeps
      = initState.sleeps ++ List.replicate (2 - 1) 5 := by
  have h := c3_failed_attempt_handling
    (fun j => if j = 1 then ProcSpec.launchFail "boom" else ProcSpec.proc 1 1) 2 initState
    (by intro k hk1 hk2; interval_cases k <;> decide)
  exact ⟨h.1, h.2.2.2⟩

theorem runLoop_success_at (beh : Nat → ProcSpec) (N k : Nat)
    (hks : isSuccessB (beh k) = true) :
    ∀ (fuel a : Nat) (s : MonitorState), a + fuel = N + 1 → 1 ≤ a → a ≤ k → k ≤ N →
      (∀ j, a ≤ j → j < k → isFailureB (beh j) = true) →
      (runLoop beh N fuel a s).1 = true ∧
      (runLoop beh N fuel a s).2.tracker.get_retry_count "Installer Execution"
        = s.tracker.get_retry_count "Installer Execution" + (k - a + 1) ∧
      (∃ t : List Step, (runLoop beh N fuel a s).2.audit.steps = s.audit.steps ++ t ∧
        t.getLast? = some { name := attemptName k, status := "SUCCESS",
                            details := "Completed on attempt " ++ toString k, attempt := k } ∧
        ∀ st ∈ t, st.attempt ≤ k) := by
  intro fuel
  induction fuel with
  | zero =>
    intro a s hA h1 hak hkN hfail
    exfalso
    omega
  | succ fuel ih =>
    intro a s hA h1 hak hkN hfail
    rcases eq_or_lt_of_le hak with hak' | hlt
    · subst hak'
      cases hb : beh a with
      | launchFail msg =>
        rw [hb] at hks
        simp [isSuccessB] at hks
      | proc exitTime code =>
        rw [hb] at hks
        have hbw : (boundedWait 300 exitTime code == some 0) = true := by
          simpa [isSuccessB] using hks
        simp only [runLoop, hb, hbw, if_true]
        refine ⟨trivial, ?_,
          ⟨[{ name := attemptName a, status := "RUNNING", details := "", attempt := a },
            { name := attemptName a, status := "SUCCESS",
              details := "Completed on attempt " ++ toString a, attempt := a }], ?_, ?_, ?_⟩⟩
        · have hone : (addStepS (incrementRetryS s "Installer Execution")
              (attemptName a) "RUNNING" "" a).tracker.get_retry_count "Installer Execution"
              = s.tracker.get_retry_count "Installer Execution" + 1 :=
            lookupD_dictSet_self _ _ _
        
          rw [show a - a + 1 = 1 by omega]
          exact hone
        · simp
        · rfl
        · intro st hst
          rcases List.mem_cons.mp hst with h | h
          · rw [h]
          · rcases List.mem_cons.mp h with h2 | h2
            · rw [h2]
            · exact absurd h2 (List.not_mem_nil st)
    · have hfa := hfail a le_rfl hlt
      have haN : a < N := by omega
      cases hb : beh a with
      | launchFail msg =>
        simp only [runLoop, hb]
        rw [if_pos haN]
        obtain ⟨ihF, ihR, ⟨t, ht1, ht2, ht3⟩⟩ := ih (a + 1)
          (sleepS (addErrorS
            (addStepS (incrementRetryS s "Installer Execution") (attemptName a) "RUNNING" "" a)
            "Installer Execution" ("Attempt " ++ toString a ++ " crashed: " ++ msg)
            (if a == N then "HIGH" else "MEDIUM") "") 5)
          (by omega) (by omega) (by omega) hkN (fun j hj1 hj2 => hfail j (by omega) hj2)
        refine ⟨ihF, ?_,
          ⟨{ name := attemptName a, status := "RUNNING", details := "", attempt := a } :: t,
            ?_, ?_, ?_⟩⟩
        · rw [ihR]
          have hone : (sleepS (addErrorS
              (addStepS (incrementRetryS s "Installer Execution") (attemptName a) "RUNNING" "" a)
              "Installer Execution" ("Attempt " ++ toString a ++ " crashed: " ++ msg)
              (if a == N then "HIGH" else "MEDIUM") "") 5).tracker.get_retry_count
                "Installer Execution"
              = s.tracker.get_retry_count "Installer Execution" + 1 :=
            lookupD_dictSet_self _ _ _
          rw [hone]
          omega
        · rw [ht1]
          simp
        · cases t with
          | nil => simp at ht2
          | cons u us => rw [List.getLast?_cons_cons]; exact ht2
        · intro st hst
          rcases List.mem_cons.mp hst with h | h
          · rw [h]
            exact le_of_lt hlt
          · exact ht3 st h
      | proc exitTime code =>
        rw [hb] at hfa
        have hbw : (boundedWait 300 exitTime code == some 0) = false := by
          simpa [isFailureB] using hfa
        simp only [runLoop, hb, hbw, Bool.false_eq_true, if_false]
        rw [if_pos haN]
        obtain ⟨ihF, ihR, ⟨t, ht1, ht2, ht3⟩⟩ := ih (a + 1)
          (sleepS (addErrorS
            (addStepS
              (addStepS (incrementRetryS s "Installer Execution") (attemptName a) "RUNNING" "" a)
              (attemptName a) "FAILED" (statusMsg (boundedWait 300 exitTime code)) a)
            "Installer Execution"
            ("Attempt " ++ toString a ++ " failed: "
              ++ statusMsg (boundedWait 300 exitTime code))
            (if a == N then "HIGH" else "MEDIUM") (retrySuggestion a N)) 5)
          (by omega) (by omega) (by omega) hkN (fun j hj1 hj2 => hfail j (by omega) hj2)
        refine ⟨ihF, ?_,
          ⟨{ name := attemptName a, status := "RUNNING", details := "", attempt := a }
              :: { name := attemptName a, status := "FAILED",
                     details := statusMsg (boundedWait 300 exitTime code), attempt := a }
              :: t,
            ?_, ?_, ?_⟩⟩
        · rw [ihR]
          have hone : (sleepS (addErrorS
              (addStepS
                (addStepS (incrementRetryS s "Installer Execution")
                  (attemptName a) "RUNNING" "" a)
                (attemptName a) "FAILED" (statusMsg (boundedWait 300 exitTime code)) a)
              "Installer Execution"
              ("Attempt " ++ toString a ++ " failed: "
                ++ statusMsg (boundedWait 300 exitTime code))
              (if a == N then "HIGH" else "MEDIUM") (retrySuggestion a N)) 5).tracker.get_retry_count
                "Installer Execution"
              = s.tracker.get_retry_count "Installer Execution" + 1 :=
            lookupD_dictSet_self _ _ _
          rw [hone]
          omega
        · rw [ht1]
          simp
        · cases t with
          | nil => simp at ht2
          | cons u us =>
            rw [List.getLast?_cons_cons, List.getLast?_cons_cons]
            exact ht2
        · intro st hst
          rcases List.mem_cons.mp hst with h | h
          · rw [h]
            exact le_of_lt hlt
          · rcases List.mem_cons.mp h with h2 | h2
            · rw [h2]
              exact le_of_lt hlt
            · exact ht3 st h2

/-- C2: if attempts 1..k-1 fail and attempt k ≤ N exits with code 0, the
retry runner returns success after exactly k attempts (k retry-counter
increments), the last recorded Step is the `SUCCESS` Step of attempt k, and
no step of any attempt beyond k is ever recorded. -/
theorem c2_success_stops_after_k_attempts :
    ∀ (beh : Nat → ProcSpec) (N k : Nat) (s : MonitorState),
      1 ≤ k → k ≤ N →
      (∀ j, 1 ≤ j → j < k → isFailureB (beh j) = true) →
      isSuccessB (beh k) = true →
      (run_installer_with_retries beh N s).1 = true ∧
      (run_installer_with_retries beh N s).2.tracker.get_retry_count "Installer Execution"
        = s.tracker.get_retry_count "Installer Execution" + k ∧
      (∃ t : List Step, (run_installer_with_retries beh N s).2.audit.steps
          = s.audit.steps ++ t ∧
        t.getLast? = some { name := attemptName k, status := "SUCCESS",
                            details := "Completed on attempt " ++ toString k, attempt := k } ∧
        ∀ st ∈ t, st.attempt ≤ k) := by
  intro beh N k s hk1 hkN hfail hks
  simp only [run_installer_with_retries]
  obtain ⟨h1, h2, h3⟩ := runLoop_success_at beh N k hks N 1 s (by omega) le_rfl hk1 hkN hfail
  refine ⟨h1, ?_, h3⟩
  rw [h2]
  congr 1
  omega

set_option maxRecDepth 8000

/-- Witness for C2: attempt 1 times out (exit after 400 > 300 units),
attempt 2 exits with code 0 — success after exactly 2 of the allowed 3
attempts. -/
theorem c2_success_stops_after_k_attempts_witness :
    (run_installer_with_retries
        (fun j => if j = 1 then ProcSpec.proc 400 1 else ProcSpec.proc 1 0) 3 initState).1
      = true ∧
    (run_installer_with_retries
        (fun j => if j = 1 then ProcSpec.proc 400 1 else ProcSpec.proc 1 0) 3
        initState).2.tracker.get_retry_count "Installer Execution"
      = initState.tracker.get_retry_count "Installer Execution" + 2 := by
  have h := c2_success_stops_after_k_attempts
    (fun j => if j = 1 then ProcSpec.proc 400 1 else ProcSpec.proc 1 0) 3 2 initState
    (by omega) (by omega)
    (by intro j hj1 hj2; interval_cases j; decide)
    (by decide)
  exact ⟨h.1, h.2.1⟩

theorem shape_eq_iff (s t : MonitorState) :
    shape s = shape t ↔
      (s.audit.steps.map stepShape = t.audit.steps.map stepShape ∧
       s.tracker.errors.map errShape = t.tracker.errors.map errShape ∧
       s.tracker.warnings = t.tracker.warnings ∧
       s.tracker.retries = t.tracker.retries ∧
       s.sleeps = t.sleeps ∧
       s.audit.start_time = t.audit.start_time ∧
       s.audit.end_time = t.audit.end_time ∧
       s.audit.success = t.audit.success) := by
  simp [shape, Prod.ext_iff]

theorem shape_addStepS (s t : MonitorState) (h : shape s = shape t)
    (n st d d' : String) (a : Nat) :
    shape (addStepS s n st d a) = shape (addStepS t n st d' a) := by
  rw [shape_eq_iff] at h ⊢
  obtain ⟨h1, h2, h3, h4, h5, h6, h7, h8⟩ := h
  exact ⟨by simp [addStepS, stepShape, h1], h2, h3, h4, h5, h6, h7, h8⟩

theorem shape_addErrorS (s t : MonitorState) (h : shape s = shape t)
    (c e e' sev sug : String) :
    shape (addErrorS s c e sev sug) = shape (addErrorS t c e' sev sug) := by
  rw [shape_eq_iff] at h ⊢
  obtain ⟨h1, h2, h3, h4, h5, h6, h7, h8⟩ := h
  exact ⟨h1, by simp [errShape, h2, h4], h3, h4, h5, h6, h7, h8⟩

theorem shape_incrementRetryS (s t : MonitorState) (h : shape s = shape t) (c : String) :
    shape (incrementRetryS s c) = shape (incrementRetryS t c) := by
  rw [shape_eq_iff] at h ⊢
  obtain ⟨h1, h2, h3, h4, h5, h6, h7, h8⟩ := h
  exact ⟨h1, h2, h3, by simp [h4], h5, h6, h7, h8⟩

theorem shape_sleepS (s t : MonitorState) (h : shape s = shape t) (d : Nat) :
    shape (sleepS s d) = shape (sleepS t d) := by
  rw [shape_eq_iff] at h ⊢
  obtain ⟨h1, h2, h3, h4, h5, h6, h7, h8⟩ := h
  exact ⟨h1, h2, h3, h4, by simp [h5], h6, h7, h8⟩

theorem runLoop_shape_eq (beh beh' : Nat → ProcSpec) (N : Nat) :
    ∀ (fuel a : Nat) (s t : MonitorState), shape s = shape t →
      (∀ j, a ≤ j → j < a + fuel → classifyAttempt (beh j) = classifyAttempt (beh' j)) →
      (runLoop beh N fuel a s).1 = (runLoop beh' N fuel a t).1 ∧
      shape (runLoop beh N fuel a s).2 = shape (runLoop beh' N fuel a t).2 := by
  intro fuel
  induction fuel with
  | zero => intro a s t hst _; exact ⟨rfl, hst⟩
  | succ fuel ih =>
    intro a s t hst hcls
    have hca := hcls a le_rfl (by omega)
    cases hb : beh a with
    | launchFail msg =>
      cases hb' : beh' a with
      | launchFail msg' =>
        simp only [runLoop, hb, hb']
        have hs2 : shape (addErrorS
              (addStepS (incrementRetryS s "Installer Execution")
                (attemptName a) "RUNNING" "" a)
              "Installer Execution" ("Attempt " ++ toString a ++ " crashed: " ++ msg)
              (if a == N then "HIGH" else "MEDIUM") "")
            = shape (addErrorS
              (addStepS (incrementRetryS t "Installer Execution")
                (attemptName a) "RUNNING" "" a)
              "Installer Execution" ("Attempt " ++ toString a ++ " crashed: " ++ msg')
              (if a == N then "HIGH" else "MEDIUM") "") :=
          shape_addErrorS _ _
            (shape_addStepS _ _ (shape_incrementRetryS _ _ hst _) _ _ _ _ _) _ _ _ _ _
        by_cases hlt : a < N
        · rw [if_pos hlt, if_pos hlt]
          exact ih (a + 1) _ _ (shape_sleepS _ _ hs2 5)
            (fun j hj1 hj2 => hcls j (by omega) (by omega))
        · rw [if_neg hlt, if_neg hlt]
          exact ⟨rfl, hs2⟩
      | proc exitTime' code' =>
        exfalso
        rw [hb, hb'] at hca
        by_cases hbw' : (boundedWait 300 exitTime' code' == some 0) = true <;>
          simp [classifyAttempt, hbw'] at hca
    | proc exitTime code =>
      cases hb' : beh' a with
      | launchFail msg' =>
        exfalso
        rw [hb, hb'] at hca
        by_cases hbw : (boundedWait 300 exitTime code == some 0) = true <;>
          simp [classifyAttempt, hbw] at hca
      | proc exitTime' code' =>
        rw [hb, hb'] at hca
        cases hbw : (boundedWait 300 exitTime code == some 0) with
        | true =>
          cases hbw' : (boundedWait 300 exitTime' code' == some 0) with
          | true =>
            simp only [runLoop, hb, hb', hbw, hbw', if_true]
            exact ⟨trivial, shape_addStepS _ _
              (shape_addStepS _ _ (shape_incrementRetryS _ _ hst _) _ _ _ _ _) _ _ _ _ _⟩
          | false =>
            exfalso
            simp [classifyAttempt, hbw, hbw'] at hca
        | false =>
          cases hbw' : (boundedWait 300 exitTime' code' == some 0) with
          | true =>
            exfalso
            simp [classifyAttempt, hbw, hbw'] at hca
          | false =>
            simp only [runLoop, hb, hb', hbw, hbw', Bool.false_eq_true, if_false]
            have hs2 : shape (addErrorS
                  (addStepS
                    (addStepS (incrementRetryS s "Installer Execution")
                      (attemptName a) "RUNNING" "" a)
                    (attemptName a) "FAILED"
                    (statusMsg (boundedWait 300 exitTime code)) a)
                  "Installer Execution"
                  ("Attempt " ++ toString a ++ " failed: "
                    ++ statusMsg (boundedWait 300 exitTime code))
                  (if a == N then "HIGH" else "MEDIUM") (retrySuggestion a N))
                = shape (addErrorS
                  (addStepS
                    (addStepS (incrementRetryS t "Installer Execution")
                      (attemptName a) "RUNNING" "" a)
                    (attemptName a) "FAILED"
                    (statusMsg (boundedWait 300 exitTime' code')) a)
                  "Installer Execution"
                  ("Attempt " ++ toString a ++ " failed: "
                    ++ statusMsg (boundedWait 300 exitTime' code'))
                  (if a == N then "HIGH" else "MEDIUM") (retrySuggestion a N)) :=
              shape_addErrorS _ _
                (shape_addStepS _ _
                  (shape_addStepS _ _ (shape_incrementRetryS _ _ hst _) _ _ _ _ _) _ _ _ _ _)
                _ _ _ _ _
            by_cases hlt : a < N
            · rw [if_pos hlt, if_pos hlt]
              exact ih (a + 1) _ _ (shape_sleepS _ _ hs2 5)
                (fun j hj1 hj2 => hcls j (by omega) (by omega))
            · rw [if_neg hlt, if_neg hlt]
              exact ⟨rfl, hs2⟩

/-- C4: an attempt whose child process has not exited when the 300-poll
bounded wait expires is classified as a timeout (`FAILED` Step with detail
"Timed out", one ErrorRecord with the usual severity rule, one retry
increment) and drives exactly the same retry decision as a non-zero exit:
replacing the timing-out process of attempt k by one that exits within the
wait with a non-zero code changes neither the boolean outcome nor any
step/error/retry/backoff observable other than the free message text. -/
theorem c4_timeout_handled_like_nonzero_exit :
    ∀ (beh : Nat → ProcSpec) (N k exitTime : Nat) (code : Int)
      (exitTime' : Nat) (code' : Int) (s : MonitorState),
      beh k = ProcSpec.proc exitTime code → 300 < exitTime →
      exitTime' ≤ 300 → code' ≠ 0 →
      ((run_installer_with_retries beh N s).1
        = (run_installer_with_retries
            (fun j => if j = k then ProcSpec.proc exitTime' code' else beh j) N s).1 ∧
       shape (run_installer_with_retries beh N s).2
        = shape (run_installer_with_retries
            (fun j => if j = k then ProcSpec.proc exitTime' code' else beh j) N s).2) ∧
      (∀ (fuel : Nat) (u : MonitorState),
        runLoop beh N (fuel + 1) k u
          = if k < N then
              runLoop beh N fuel (k + 1)
                (sleepS (addErrorS
                  (addStepS
                    (addStepS (incrementRetryS u "Installer Execution")
                      (attemptName k) "RUNNING" "" k)
                    (attemptName k) "FAILED" "Timed out" k)
                  "Installer Execution"
                  ("Attempt " ++ toString k ++ " failed: " ++ "Timed out")
                  (if k == N then "HIGH" else "MEDIUM") (retrySuggestion k N)) 5)
            else
              (false, addErrorS
                  (addStepS
                    (addStepS (incrementRetryS u "Installer Execution")
                      (attemptName k) "RUNNING" "" k)
                    (attemptName k) "FAILED" "Timed out" k)
                  "Installer Execution"
                  ("Attempt " ++ toString k ++ " failed: " ++ "Timed out")
                  (if k == N then "HIGH" else "MEDIUM") (retrySuggestion k N))) := by
  intro beh N k exitTime code exitTime' code' s hk h300 he' hc'
  have hbwk : boundedWait 300 exitTime code = none := boundedWait_timeout _ _ h300
  have hbwk' : boundedWait 300 exitTime' code' = some code' := boundedWait_exits _ _ he'
  have hne : ((some code' : Option Int) == some 0) = false := by
    rw [beq_eq_false_iff_ne]
    simp [hc']
  constructor
  · apply runLoop_shape_eq beh _ N N 1 s s rfl
    intro j _ _
    by_cases hj : j = k
    · subst hj
      rw [hk]
      simp [classifyAttempt, hbwk, hbwk', hne]
    · simp [if_neg hj]
  · intro fuel u
    have hbwkb : (boundedWait 300 exitTime code == some 0) = false := by simp [hbwk]
    simp only [runLoop, hk, hbwkb, Bool.false_eq_true, if_false]
    simp [statusMsg, hbwk]

/-- Witness for C4: a single attempt that never exits within the wait
yields the same boolean outcome as a single attempt exiting with code 1. -/
theorem c4_timeout_handled_like_nonzero_exit_witness :
    (run_installer_with_retries (fun _ => ProcSpec.proc 301 0) 1 initState).1
      = (run_installer_with_retries
          (fun j => if j = 1 then ProcSpec.proc 1 1 else ProcSpec.proc 301 0) 1 initState).1 := by
  have h := c4_timeout_handled_like_nonzero_exit (fun _ => ProcSpec.proc 301 0)
    1 1 301 0 1 1 initState rfl (by omega) (by omega) (by decide)
  exact h.1.1
